import Mathlib

/-
Verification of the s2s federation server of the jackal XMPP server
(package s2s in the shown sources): the outbound get-or-dial registry,
the inbound registry, the stop lifecycle operation and the accept loop
of listenConn.

Shallow embedding conventions:
- each sync.Map becomes an association list from string keys to Handle
  values; Load, Store, LoadOrStore, Delete and Range are modelled
  directly on that list;
- stream values stored as Go interface values carry a Role tag; a Go
  type assertion v.(*inStream) or v.(*outStream) is modelled as a role
  check that panics (GoPanic.typeAssert) when the dynamic role differs;
- the dialer is a parameter of getOrDial: dial local remote = none
  models a successful dial, some e models a dial error with message e;
- the listener close outcome is a parameter of stop: closeErr = none
  models a successful Close, some e a Close error;
- state the claims observe (dial invocations, Disconnect deliveries,
  listener close count) is recorded in explicit log fields of the
  server state.
-/

inductive Role where
  | inRole : Role
  | outRole : Role
deriving DecidableEq, Repr

structure Handle where
  sid : Nat
  role : Role
  hid : String
  started : Bool
deriving DecidableEq, Repr

inductive GoPanic where
  | typeAssert : GoPanic
deriving DecidableEq, Repr

def mapLoad : List (String × Handle) → String → Option Handle
  | [], _ => none
  | (k2, v) :: rest, k => if k2 = k then some v else mapLoad rest k

def mapStore : List (String × Handle) → String → Handle → List (String × Handle)
  | [], k, v => [(k, v)]
  | (k2, v2) :: rest, k, v =>
    if k2 = k then (k, v) :: rest else (k2, v2) :: mapStore rest k v

def mapDelete : List (String × Handle) → String → List (String × Handle)
  | [], _ => []
  | (k2, v2) :: rest, k =>
    if k2 = k then mapDelete rest k else (k2, v2) :: mapDelete rest k

def mapLoadOrStore (m : List (String × Handle)) (k : String) (v : Handle) :
    Handle × Bool × List (String × Handle) :=
  match mapLoad m k with
  | some v2 => (v2, true, m)
  | none => (v, false, m ++ [(k, v)])

structure ServerState where
  listening : Nat
  lnClosed : Bool
  closeCount : Nat
  outConns : List (String × Handle)
  inConns : List (String × Handle)
  nextSid : Nat
  dials : List (String × String)
  disconnects : List (Nat × String)
deriving DecidableEq, Repr

def errSystemShutdown : String := "system shutdown"

def unregisterOutStream (s : ServerState) (stm : Handle) : ServerState :=
  { s with outConns := mapDelete s.outConns stm.hid }

def registerInStream (s : ServerState) (stm : Handle) : ServerState :=
  { s with inConns := mapStore s.inConns stm.hid stm }

def unregisterInStream (s : ServerState) (stm : Handle) : ServerState :=
  { s with inConns := mapDelete s.inConns stm.hid }

/-- Modelled from the spec: the inStream and outStream implementations are
not among the shown sources. Per the Stream capability of the spec,
Disconnect(reason) terminates the stream and, exactly once upon completion,
invokes the previously registered unregister callback; the shown sources
wire unregisterInStream as onInDisconnect and unregisterOutStream as
onOutDisconnect. We model Disconnect as recording the (stream id, reason)
event and running the matching unregister callback. -/
def disconnectHandle (s : ServerState) (h : Handle) (reason : String) : ServerState :=
  let s2 : ServerState := { s with disconnects := s.disconnects ++ [(h.sid, reason)] }
  match h.role with
  | Role.inRole => unregisterInStream s2 h
  | Role.outRole => unregisterOutStream s2 h

/-- One Range sweep of stop: for each entry the Go code runs
stm := v.(*inStream) and then stm.Disconnect(streamerror.ErrSystemShutdown),
counting the entries. Both sweeps of stop (over outConns and over inConns)
use this same body, cast to *inStream included; the cast panics when the
stored value is not an inbound stream. -/
def rangeDisconnectAsIn : List (String × Handle) → ServerState → Nat →
    Except (GoPanic × ServerState) (ServerState × Nat)
  | [], s, n => Except.ok (s, n)
  | (_, h) :: rest, s, n =>
    if h.role = Role.inRole then
      rangeDisconnectAsIn rest (disconnectHandle s h errSystemShutdown) (n + 1)
    else
      Except.error (GoPanic.typeAssert, s)

/-- stop of the s2s server: a compare-and-set of the listening flag from 1
to 0; the winner closes the listener (returning the Close error, if any,
at once) and then ranges over outConns and inConns delivering Disconnect
with the system shutdown reason; a loser returns nil immediately. -/
def stop (s : ServerState) (closeErr : Option String) :
    Except GoPanic (Option String) × ServerState :=
  if s.listening = 1 then
    let s1 : ServerState :=
      { s with listening := 0, lnClosed := true, closeCount := s.closeCount + 1 }
    match closeErr with
    | some e => (Except.ok (some e), s1)
    | none =>
      match rangeDisconnectAsIn s1.outConns s1 0 with
      | Except.error (p, sp) => (Except.error p, sp)
      | Except.ok (s2, _) =>
        match rangeDisconnectAsIn s2.inConns s2 0 with
        | Except.error (p, sp) => (Except.error p, sp)
        | Except.ok (s3, _) => (Except.ok none, s3)
  else
    (Except.ok none, s)

/-- getOrDial of the s2s server: build the key localDomain ++ ":" ++
remoteDomain, allocate a new out stream (newOutStream runs before
LoadOrStore, so the allocator advances in every call), LoadOrStore it;
the loser of the create branch returns the pre-existing value asserted
as *outStream; the winner dials, on error deletes the key and returns
the error, on success starts the stream (modelled by started := true,
visible through the shared handle) and returns it asserted as
*outStream. The Go result pair (stream.S2SOut, error) is modelled as
Option Handle times Option String, wrapped in Except for the panics of
the two type assertions. -/
def getOrDial (dial : String → String → Option String) (s : ServerState)
    (localDomain remoteDomain : String) :
    Except GoPanic (Option Handle × Option String) × ServerState :=
  let domainPair : String := localDomain ++ ":" ++ remoteDomain
  let fresh : Handle :=
    { sid := s.nextSid, role := Role.outRole, hid := domainPair, started := false }
  let s0 : ServerState := { s with nextSid := s.nextSid + 1 }
  match mapLoadOrStore s0.outConns domainPair fresh with
  | (stm, true, m) =>
    let s1 : ServerState := { s0 with outConns := m }
    if stm.role = Role.outRole then (Except.ok (some stm, none), s1)
    else (Except.error GoPanic.typeAssert, s1)
  | (stm, false, m) =>
    let s1 : ServerState := { s0 with outConns := m }
    let s2 : ServerState :=
      { s1 with dials := s1.dials ++ [(localDomain, remoteDomain)] }
    match dial localDomain remoteDomain with
    | some e =>
      (Except.ok (none, some e), { s2 with outConns := mapDelete s2.outConns domainPair })
    | none =>
      if stm.role = Role.outRole then
        let stmStarted : Handle := { stm with started := true }
        (Except.ok (some stmStarted, none),
          { s2 with outConns := mapStore s2.outConns domainPair stmStarted })
      else
        (Except.error GoPanic.typeAssert, s2)

/-
The accept loop of listenConn, as a small-step interleaving model. After
listenConn stores 1 into the listening flag, the loop alternates between
the flag check (pc = check) and a blocking Accept (pc = accepting):
entering the body requires reading flag = 1; the loop leaves only from
the check with flag not 1. Accept outcomes: a connection (spawn an in
stream and continue) or an error; the Go body ignores any error and
falls through to the next check, with no classification, no log and no
backoff, so the two error kinds step identically. stopCall models the
compare-and-set of stop from another goroutine; transitions counts its
successful 1 to 0 transitions.
-/

inductive LoopPc where
  | check : LoopPc
  | accepting : LoopPc
  | done : LoopPc
deriving DecidableEq, Repr

structure LoopState where
  pc : LoopPc
  flag : Nat
  transitions : Nat
  spawned : Nat
deriving DecidableEq, Repr

inductive LoopEv where
  | enterBody : LoopEv
  | exitLoop : LoopEv
  | acceptOk : LoopEv
  | acceptErrTransient : LoopEv
  | acceptErrClosed : LoopEv
  | stopCall : LoopEv
deriving DecidableEq, Repr

def loopStep (t : LoopState) : LoopEv → Option LoopState
  | LoopEv.enterBody =>
    if t.pc = LoopPc.check ∧ t.flag = 1 then some { t with pc := LoopPc.accepting }
    else none
  | LoopEv.exitLoop =>
    if t.pc = LoopPc.check ∧ t.flag ≠ 1 then some { t with pc := LoopPc.done }
    else none
  | LoopEv.acceptOk =>
    if t.pc = LoopPc.accepting then
      some { t with pc := LoopPc.check, spawned := t.spawned + 1 }
    else none
  | LoopEv.acceptErrTransient =>
    if t.pc = LoopPc.accepting then some { t with pc := LoopPc.check } else none
  | LoopEv.acceptErrClosed =>
    if t.pc = LoopPc.accepting then some { t with pc := LoopPc.check } else none
  | LoopEv.stopCall =>
    if t.flag = 1 then some { t with flag := 0, transitions := t.transitions + 1 }
    else some t

def loopRun : LoopState → List LoopEv → Option LoopState
  | t, [] => some t
  | t, e :: rest =>
    match loopStep t e with
    | some t2 => loopRun t2 rest
    | none => none

def lInit : LoopState := { pc := LoopPc.check, flag := 1, transitions := 0, spawned := 0 }

def loopFlagInv (t : LoopState) : Prop :=
  (t.flag = 1 ∧ t.transitions = 0) ∨ (t.flag = 0 ∧ t.transitions ≤ 1)

def exDial : String → String → Option String := fun _ _ => none

def exDialFail : String → String → Option String := fun _ _ => some "connection refused"

def hOutEx : Handle := { sid := 0, role := Role.outRole, hid := "a:b", started := true }

def hInEx : Handle := { sid := 5, role := Role.inRole, hid := "c", started := true }

def hInEx2 : Handle := { sid := 9, role := Role.inRole, hid := "z", started := true }

def ssListening : ServerState :=
  { listening := 1, lnClosed := false, closeCount := 0, outConns := [], inConns := [],
    nextSid := 0, dials := [], disconnects := [] }

def ssStopped : ServerState :=
  { listening := 0, lnClosed := true, closeCount := 1, outConns := [], inConns := [],
    nextSid := 0, dials := [], disconnects := [] }

def ssWithOut : ServerState :=
  { listening := 1, lnClosed := false, closeCount := 0,
    outConns := [("a:b", hOutEx)], inConns := [], nextSid := 1,
    dials := [("a", "b")], disconnects := [] }

theorem mapLoad_mapStore_self :
    ∀ (m : List (String × Handle)) (k : String) (v : Handle),
      mapLoad (mapStore m k v) k = some v
  | [], k, v => by simp [mapStore, mapLoad]
  | (k2, v2) :: rest, k, v => by
    by_cases hk : k2 = k
    · simp [mapStore, mapLoad, hk]
    · simp [mapStore, mapLoad, hk, mapLoad_mapStore_self rest k v]

theorem mapLoad_mapDelete_self :
    ∀ (m : List (String × Handle)) (k : String), mapLoad (mapDelete m k) k = none
  | [], k => by simp [mapDelete, mapLoad]
  | (k2, v2) :: rest, k => by
    by_cases hk : k2 = k
    · simp [mapDelete, hk, mapLoad_mapDelete_self rest k]
    · simp [mapDelete, mapLoad, hk, mapLoad_mapDelete_self rest k]

theorem mapDelete_absent :
    ∀ (m : List (String × Handle)) (k : String), mapLoad m k = none → mapDelete m k = m
  | [], k => by intro h; simp [mapDelete]
  | (k2, v2) :: rest, k => by
    intro h
    by_cases hk : k2 = k
    · simp [mapLoad, hk] at h
    · simp [mapDelete, hk]
      exact mapDelete_absent rest k (by simpa [mapLoad, hk] using h)

theorem mapLoad_append_absent :
    ∀ (m : List (String × Handle)) (k : String) (v : Handle),
      mapLoad m k = none → mapLoad (m ++ [(k, v)]) k = some v
  | [], k, v => by intro h; simp [mapLoad]
  | (k2, v2) :: rest, k, v => by
    intro h
    by_cases hk : k2 = k
    · simp [mapLoad, hk] at h
    · simp only [List.cons_append, mapLoad, if_neg hk]
      exact mapLoad_append_absent rest k v (by simpa [mapLoad, hk] using h)

theorem mapStore_append_absent :
    ∀ (m : List (String × Handle)) (k : String) (v0 v : Handle),
      mapLoad m k = none → mapStore (m ++ [(k, v0)]) k v = m ++ [(k, v)]
  | [], k, v0, v => by intro h; simp [mapStore]
  | (k2, v2) :: rest, k, v0, v => by
    intro h
    by_cases hk : k2 = k
    · simp [mapLoad, hk] at h
    · simp only [List.cons_append, mapStore, if_neg hk, List.cons.injEq, true_and]
      exact mapStore_append_absent rest k v0 v (by simpa [mapLoad, hk] using h)

theorem mapDelete_append_absent :
    ∀ (m : List (String × Handle)) (k : String) (v : Handle),
      mapLoad m k = none → mapDelete (m ++ [(k, v)]) k = m
  | [], k, v => by intro h; simp [mapDelete]
  | (k2, v2) :: rest, k, v => by
    intro h
    by_cases hk : k2 = k
    · simp [mapLoad, hk] at h
    · simp only [List.cons_append, mapDelete, if_neg hk, List.cons.injEq, true_and]
      exact mapDelete_append_absent rest k v (by simpa [mapLoad, hk] using h)

theorem getOrDial_loaded (dial : String → String → Option String) (s : ServerState)
    (A B : String) (h : Handle)
    (hload : mapLoad s.outConns (A ++ ":" ++ B) = some h)
    (hrole : h.role = Role.outRole) :
    getOrDial dial s A B =
      (Except.ok (some h, none), { s with nextSid := s.nextSid + 1 }) := by
  unfold getOrDial mapLoadOrStore
  simp [hload, hrole]

theorem getOrDial_loaded_badrole (dial : String → String → Option String)
    (s : ServerState) (A B : String) (h : Handle)
    (hload : mapLoad s.outConns (A ++ ":" ++ B) = some h)
    (hrole : h.role ≠ Role.outRole) :
    getOrDial dial s A B =
      (Except.error GoPanic.typeAssert, { s with nextSid := s.nextSid + 1 }) := by
  unfold getOrDial mapLoadOrStore
  simp [hload, hrole]

theorem getOrDial_created (dial : String → String → Option String) (s : ServerState)
    (A B : String)
    (habs : mapLoad s.outConns (A ++ ":" ++ B) = none) (hd : dial A B = none) :
    getOrDial dial s A B =
      (Except.ok
        (some { sid := s.nextSid, role := Role.outRole, hid := A ++ ":" ++ B,
                started := true }, none),
       { s with nextSid := s.nextSid + 1,
                outConns := s.outConns ++
                  [(A ++ ":" ++ B,
                    { sid := s.nextSid, role := Role.outRole, hid := A ++ ":" ++ B,
                      started := true })],
                dials := s.dials ++ [(A, B)] }) := by
  unfold getOrDial mapLoadOrStore
  simp [habs, hd, mapStore_append_absent s.outConns (A ++ ":" ++ B) _ _ habs]

theorem getOrDial_failed (dial : String → String → Option String) (s : ServerState)
    (A B e : String)
    (habs : mapLoad s.outConns (A ++ ":" ++ B) = none) (hd : dial A B = some e) :
    getOrDial dial s A B =
      (Except.ok (none, some e),
       { s with nextSid := s.nextSid + 1, dials := s.dials ++ [(A, B)] }) := by
  unfold getOrDial mapLoadOrStore
  simp [habs, hd, mapDelete_append_absent s.outConns (A ++ ":" ++ B) _ habs]

theorem disconnectHandle_fields (s : ServerState) (h : Handle) (r : String) :
    (disconnectHandle s h r).listening = s.listening ∧
    (disconnectHandle s h r).closeCount = s.closeCount := by
  cases hr : h.role <;>
    simp [disconnectHandle, unregisterInStream, unregisterOutStream, hr]

theorem rangeDisconnectAsIn_ok_fields :
    ∀ (l : List (String × Handle)) (s : ServerState) (n : Nat)
      (s2 : ServerState) (n2 : Nat),
      rangeDisconnectAsIn l s n = Except.ok (s2, n2) →
      s2.listening = s.listening ∧ s2.closeCount = s.closeCount
  | [], s, n, s2, n2 => by
    intro hr
    simp [rangeDisconnectAsIn] at hr
    rw [← hr.1]
    exact ⟨rfl, rfl⟩
  | (k, h) :: rest, s, n, s2, n2 => by
    intro hr
    by_cases hrole : h.role = Role.inRole
    · simp only [rangeDisconnectAsIn, if_pos hrole] at hr
      have ih := rangeDisconnectAsIn_ok_fields rest
        (disconnectHandle s h errSystemShutdown) (n + 1) s2 n2 hr
      have hd := disconnectHandle_fields s h errSystemShutdown
      exact ⟨ih.1.trans hd.1, ih.2.trans hd.2⟩
    · simp [rangeDisconnectAsIn, if_neg hrole] at hr

theorem rangeDisconnectAsIn_err_fields :
    ∀ (l : List (String × Handle)) (s : ServerState) (n : Nat)
      (p : GoPanic) (sp : ServerState),
      rangeDisconnectAsIn l s n = Except.error (p, sp) →
      sp.listening = s.listening ∧ sp.closeCount = s.closeCount
  | [], s, n, p, sp => by
    intro hr
    simp [rangeDisconnectAsIn] at hr
  | (k, h) :: rest, s, n, p, sp => by
    intro hr
    by_cases hrole : h.role = Role.inRole
    · simp only [rangeDisconnectAsIn, if_pos hrole] at hr
      have ih := rangeDisconnectAsIn_err_fields rest
        (disconnectHandle s h errSystemShutdown) (n + 1) p sp hr
      have hd := disconnectHandle_fields s h errSystemShutdown
      exact ⟨ih.1.trans hd.1, ih.2.trans hd.2⟩
    · simp [rangeDisconnectAsIn, if_neg hrole] at hr
      rw [← hr]
      exact ⟨rfl, rfl⟩

theorem stop_fields (s : ServerState) (e : Option String) (hl : s.listening = 1) :
    ((stop s e).2).listening = 0 ∧ ((stop s e).2).closeCount = s.closeCount + 1 := by
  unfold stop
  rw [if_pos hl]
  cases e with
  | some msg => exact ⟨rfl, rfl⟩
  | none =>
    cases hro : rangeDisconnectAsIn
        ({ s with listening := 0, lnClosed := true,
                  closeCount := s.closeCount + 1 } : ServerState).outConns
        { s with listening := 0, lnClosed := true, closeCount := s.closeCount + 1 } 0 with
    | error pr =>
      obtain ⟨p, sp⟩ := pr
      have hf := rangeDisconnectAsIn_err_fields _ _ _ _ _ hro
      simp only [hro]
      exact ⟨hf.1, hf.2⟩
    | ok pr =>
      obtain ⟨s2, n2⟩ := pr
      have hf := rangeDisconnectAsIn_ok_fields _ _ _ _ _ hro
      cases hri : rangeDisconnectAsIn s2.inConns s2 0 with
      | error pr2 =>
        obtain ⟨p2, sp2⟩ := pr2
        have hf2 := rangeDisconnectAsIn_err_fields _ _ _ _ _ hri
        simp only [hro, hri]
        exact ⟨hf2.1.trans hf.1, hf2.2.trans hf.2⟩
      | ok pr2 =>
        obtain ⟨s3, n3⟩ := pr2
        have hf2 := rangeDisconnectAsIn_ok_fields _ _ _ _ _ hri
        simp only [hro, hri]
        exact ⟨hf2.1.trans hf.1, hf2.2.trans hf.2⟩

theorem loopStep_preserves_inv (t t2 : LoopState) (e : LoopEv)
    (hinv : loopFlagInv t) (hstep : loopStep t e = some t2) : loopFlagInv t2 := by
  cases e with
  | enterBody =>
    by_cases hc : t.pc = LoopPc.check ∧ t.flag = 1
    · simp only [loopStep, if_pos hc, Option.some.injEq] at hstep
      rw [← hstep]
      exact hinv
    · simp [loopStep, if_neg hc] at hstep
  | exitLoop =>
    by_cases hc : t.pc = LoopPc.check ∧ t.flag ≠ 1
    · simp only [loopStep, if_pos hc, Option.some.injEq] at hstep
      rw [← hstep]
      exact hinv
    · simp [loopStep, if_neg hc] at hstep
  | acceptOk =>
    by_cases hc : t.pc = LoopPc.accepting
    · simp only [loopStep, if_pos hc, Option.some.injEq] at hstep
      rw [← hstep]
      exact hinv
    · simp [loopStep, if_neg hc] at hstep
  | acceptErrTransient =>
    by_cases hc : t.pc = LoopPc.accepting
    · simp only [loopStep, if_pos hc, Option.some.injEq] at hstep
      rw [← hstep]
      exact hinv
    · simp [loopStep, if_neg hc] at hstep
  | acceptErrClosed =>
    by_cases hc : t.pc = LoopPc.accepting
    · simp only [loopStep, if_pos hc, Option.some.injEq] at hstep
      rw [← hstep]
      exact hinv
    · simp [loopStep, if_neg hc] at hstep
  | stopCall =>
    by_cases hc : t.flag = 1
    · simp only [loopStep, if_pos hc, Option.some.injEq] at hstep
      rw [← hstep]
      rcases hinv with ⟨h1, h2⟩ | ⟨h1, h2⟩
      · right
        refine ⟨rfl, ?_⟩
        show t.transitions + 1 ≤ 1
        omega
      · exfalso
        omega
    · simp only [loopStep, if_neg hc, Option.some.injEq] at hstep
      rw [← hstep]
      exact hinv

theorem loopRun_preserves_inv :
    ∀ (evs : List LoopEv) (t t2 : LoopState),
      loopFlagInv t → loopRun t evs = some t2 → loopFlagInv t2
  | [], t, t2 => by
    intro hi hr
    simp [loopRun] at hr
    rw [← hr]
    exact hi
  | e :: rest, t, t2 => by
    intro hi hr
    cases hs : loopStep t e with
    | none => simp [loopRun, hs] at hr
    | some t3 =>
      simp only [loopRun, hs] at hr
      exact loopRun_preserves_inv rest t3 t2 (loopStep_preserves_inv t t3 e hi hs) hr

/-- Claim C1: for every domain pair (A,B), a getOrDial call that finds an
existing non-removed entry under the key A ++ ":" ++ B returns the same
handle instance as the call that created the entry and performs no dialer
invocation; across the creating call and the repeated call exactly one
dial is recorded, decided by the single load-or-store on that key. -/
theorem getOrDial_dedups (dial : String → String → Option String) (s : ServerState)
    (A B : String)
    (habs : mapLoad s.outConns (A ++ ":" ++ B) = none) (hd : dial A B = none) :
    (getOrDial dial s A B).1 =
      Except.ok (some { sid := s.nextSid, role := Role.outRole,
                        hid := A ++ ":" ++ B, started := true }, none) ∧
    (getOrDial dial ((getOrDial dial s A B).2) A B).1 =
      Except.ok (some { sid := s.nextSid, role := Role.outRole,
                        hid := A ++ ":" ++ B, started := true }, none) ∧
    ((getOrDial dial ((getOrDial dial s A B).2) A B).2).dials = s.dials ++ [(A, B)] ∧
    ((getOrDial dial ((getOrDial dial s A B).2) A B).2).outConns =
      s.outConns ++ [(A ++ ":" ++ B,
        { sid := s.nextSid, role := Role.outRole, hid := A ++ ":" ++ B,
          started := true })] := by
  have h1 := getOrDial_created dial s A B habs hd
  have hload2 : mapLoad ((getOrDial dial s A B).2).outConns (A ++ ":" ++ B) =
      some { sid := s.nextSid, role := Role.outRole, hid := A ++ ":" ++ B,
             started := true } := by
    rw [h1]
    exact mapLoad_append_absent s.outConns (A ++ ":" ++ B) _ habs
  have h2 := getOrDial_loaded dial ((getOrDial dial s A B).2) A B _ hload2 rfl
  refine ⟨by rw [h1], by rw [h2], ?_, ?_⟩
  · rw [h2, h1]
  · rw [h2, h1]

theorem getOrDial_dedups_witness :
    (getOrDial exDial ssListening "a" "b").1 =
      Except.ok (some { sid := ssListening.nextSid, role := Role.outRole,
                        hid := "a" ++ ":" ++ "b", started := true }, none) ∧
    (getOrDial exDial ((getOrDial exDial ssListening "a" "b").2) "a" "b").1 =
      Except.ok (some { sid := ssListening.nextSid, role := Role.outRole,
                        hid := "a" ++ ":" ++ "b", started := true }, none) ∧
    ((getOrDial exDial ((getOrDial exDial ssListening "a" "b").2) "a" "b").2).dials =
      ssListening.dials ++ [("a", "b")] ∧
    ((getOrDial exDial ((getOrDial exDial ssListening "a" "b").2) "a" "b").2).outConns =
      ssListening.outConns ++ [("a" ++ ":" ++ "b",
        { sid := ssListening.nextSid, role := Role.outRole,
          hid := "a" ++ ":" ++ "b", started := true })] :=
  getOrDial_dedups exDial ssListening "a" "b" rfl rfl

/-- Claim C3: when the dialer fails for (A,B), getOrDial returns that very
error (and no handle) and the outbound registry afterwards holds no entry
for the key A ++ ":" ++ B: the slot reserved by the same call is rolled
back, leaving outConns exactly as before, so a later call can retry. -/
theorem getOrDial_dial_error_rolls_back (dial : String → String → Option String)
    (s : ServerState) (A B e : String)
    (habs : mapLoad s.outConns (A ++ ":" ++ B) = none) (hd : dial A B = some e) :
    (getOrDial dial s A B).1 = Except.ok (none, some e) ∧
    ((getOrDial dial s A B).2).outConns = s.outConns ∧
    mapLoad ((getOrDial dial s A B).2).outConns (A ++ ":" ++ B) = none := by
  have h := getOrDial_failed dial s A B e habs hd
  refine ⟨by rw [h], by rw [h], ?_⟩
  rw [h]
  exact habs

theorem getOrDial_dial_error_rolls_back_witness :
    (getOrDial exDialFail ssListening "a" "b").1 =
      Except.ok (none, some "connection refused") ∧
    ((getOrDial exDialFail ssListening "a" "b").2).outConns = ssListening.outConns ∧
    mapLoad ((getOrDial exDialFail ssListening "a" "b").2).outConns
      ("a" ++ ":" ++ "b") = none :=
  getOrDial_dial_error_rolls_back exDialFail ssListening "a" "b"
    "connection refused" rfl rfl

/-- Claim C6: after unregisterOutStream removes the entry for (A,B), a
subsequent getOrDial for (A,B) wins the create branch again: the key is
absent, the dialer is invoked afresh, and on success a freshly allocated
handle is stored and returned — the prior slot does not leak. -/
theorem unregister_then_fresh_dial (dial : String → String → Option String)
    (s : ServerState) (A B : String) (h : Handle)
    (hhid : h.hid = A ++ ":" ++ B) (hd : dial A B = none) :
    mapLoad ((unregisterOutStream s h).outConns) (A ++ ":" ++ B) = none ∧
    (getOrDial dial (unregisterOutStream s h) A B).1 =
      Except.ok (some { sid := s.nextSid, role := Role.outRole,
                        hid := A ++ ":" ++ B, started := true }, none) ∧
    ((getOrDial dial (unregisterOutStream s h) A B).2).dials =
      s.dials ++ [(A, B)] := by
  have habs : mapLoad ((unregisterOutStream s h).outConns) (A ++ ":" ++ B) = none := by
    show mapLoad (mapDelete s.outConns h.hid) (A ++ ":" ++ B) = none
    rw [hhid]
    exact mapLoad_mapDelete_self s.outConns (A ++ ":" ++ B)
  have hc := getOrDial_created dial (unregisterOutStream s h) A B habs hd
  refine ⟨habs, ?_, ?_⟩
  · rw [hc]
    rfl
  · rw [hc]
    rfl

theorem unregister_then_fresh_dial_witness :
    mapLoad ((unregisterOutStream ssWithOut hOutEx).outConns) ("a" ++ ":" ++ "b") = none ∧
    (getOrDial exDial (unregisterOutStream ssWithOut hOutEx) "a" "b").1 =
      Except.ok (some { sid := ssWithOut.nextSid, role := Role.outRole,
                        hid := "a" ++ ":" ++ "b", started := true }, none) ∧
    ((getOrDial exDial (unregisterOutStream ssWithOut hOutEx) "a" "b").2).dials =
      ssWithOut.dials ++ [("a", "b")] :=
  unregister_then_fresh_dial exDial ssWithOut "a" "b" hOutEx rfl rfl

/-- Claim C9: a getOrDial call that finds a pre-existing entry for its
domain pair returns that handle with a nil error and without invoking the
dialer, whatever the state of the stored handle (its started field is
arbitrary, covering a dial still in flight or a stream never started);
and no getOrDial call ever returns a nil handle together with a nil
error. -/
theorem getOrDial_existing_no_dial (dial dial2 : String → String → Option String)
    (s s2 : ServerState) (A B A2 B2 : String) (h : Handle)
    (oh : Option Handle) (oe : Option String)
    (hload : mapLoad s.outConns (A ++ ":" ++ B) = some h)
    (hrole : h.role = Role.outRole)
    (hres : (getOrDial dial2 s2 A2 B2).1 = Except.ok (oh, oe)) :
    (getOrDial dial s A B).1 = Except.ok (some h, none) ∧
    ((getOrDial dial s A B).2).dials = s.dials ∧
    ((getOrDial dial s A B).2).outConns = s.outConns ∧
    (oh = none → oe.isSome = true) := by
  have h1 := getOrDial_loaded dial s A B h hload hrole
  refine ⟨by rw [h1], by rw [h1], by rw [h1], ?_⟩
  intro hnone
  subst hnone
  cases hm : mapLoad s2.outConns (A2 ++ ":" ++ B2) with
  | some v =>
    by_cases hv : v.role = Role.outRole
    · rw [getOrDial_loaded dial2 s2 A2 B2 v hm hv] at hres
      simp at hres
    · rw [getOrDial_loaded_badrole dial2 s2 A2 B2 v hm hv] at hres
      simp at hres
  | none =>
    cases hd2 : dial2 A2 B2 with
    | none =>
      rw [getOrDial_created dial2 s2 A2 B2 hm hd2] at hres
      simp at hres
    | some e2 =>
      rw [getOrDial_failed dial2 s2 A2 B2 e2 hm hd2] at hres
      cases oe with
      | none => simp at hres
      | some x => rfl

theorem getOrDial_existing_no_dial_witness :
    (getOrDial exDial ssWithOut "a" "b").1 = Except.ok (some hOutEx, none) ∧
    ((getOrDial exDial ssWithOut "a" "b").2).dials = ssWithOut.dials ∧
    ((getOrDial exDial ssWithOut "a" "b").2).outConns = ssWithOut.outConns ∧
    ((none : Option Handle) = none → (some "connection refused").isSome = true) :=
  getOrDial_existing_no_dial exDial exDialFail ssWithOut ssListening
    "a" "b" "a" "b" hOutEx none (some "connection refused") rfl rfl rfl

theorem stop_noop (s : ServerState) (e : Option String) (hl : s.listening ≠ 1) :
    stop s e = (Except.ok none, s) := by
  unfold stop
  rw [if_neg hl]

/-- Claim C4: stop is idempotent: after a first stop from the Listening
state, a second stop observes the flag already not Listening, performs no
socket close and no registry operation, returns success and leaves the
state untouched; the listener close count across both calls stays at one
more than before, so the listener socket is closed at most once. -/
theorem stop_second_call_noop (s : ServerState) (e1 e2 : Option String)
    (hl : s.listening = 1) :
    stop ((stop s e1).2) e2 = (Except.ok none, (stop s e1).2) ∧
    ((stop s e1).2).closeCount = s.closeCount + 1 ∧
    ((stop ((stop s e1).2) e2).2).closeCount = s.closeCount + 1 := by
  have hf := stop_fields s e1 hl
  have hnoop := stop_noop ((stop s e1).2) e2 (by rw [hf.1]; omega)
  exact ⟨hnoop, hf.2, by rw [hnoop]; exact hf.2⟩

theorem stop_second_call_noop_witness :
    stop ((stop ssListening none).2) none =
      (Except.ok none, (stop ssListening none).2) ∧
    ((stop ssListening none).2).closeCount = ssListening.closeCount + 1 ∧
    ((stop ((stop ssListening none).2) none).2).closeCount =
      ssListening.closeCount + 1 :=
  stop_second_call_noop ssListening none none rfl

/-- Claim C10: when the winning stop call observes a Close error, stop
returns that error immediately: no registry is iterated, no Disconnect is
recorded, and both registries and the disconnect log are exactly as
before. -/
theorem stop_close_error_early_return (s : ServerState) (e : String)
    (hl : s.listening = 1) :
    stop s (some e) =
      (Except.ok (some e),
       { s with listening := 0, lnClosed := true,
                closeCount := s.closeCount + 1 }) ∧
    ((stop s (some e)).2).outConns = s.outConns ∧
    ((stop s (some e)).2).inConns = s.inConns ∧
    ((stop s (some e)).2).disconnects = s.disconnects := by
  have h : stop s (some e) =
      (Except.ok (some e),
       { s with listening := 0, lnClosed := true,
                closeCount := s.closeCount + 1 }) := by
    unfold stop
    rw [if_pos hl]
  exact ⟨h, by simp [h], by simp [h], by simp [h]⟩

theorem stop_close_error_early_return_witness :
    stop ssWithOut (some "boom") =
      (Except.ok (some "boom"),
       { ssWithOut with listening := 0, lnClosed := true,
                        closeCount := ssWithOut.closeCount + 1 }) ∧
    ((stop ssWithOut (some "boom")).2).outConns = ssWithOut.outConns ∧
    ((stop ssWithOut (some "boom")).2).inConns = ssWithOut.inConns ∧
    ((stop ssWithOut (some "boom")).2).disconnects = ssWithOut.disconnects :=
  stop_close_error_early_return ssWithOut "boom" rfl

/-- Claim C2, evaluated at the failing input: on a listening server whose
outbound registry holds one entry, the winning stop call panics on the
v.(*inStream) type assertion inside the outConns Range before any
Disconnect is delivered: the result is a panic, no disconnect is
recorded, and the outbound registry is not emptied — against the claim
that stop completes with every handle disconnected with the system
shutdown reason and both registries empty. -/
theorem stop_out_range_panics :
    (stop ssWithOut none).1 = Except.error GoPanic.typeAssert ∧
    ((stop ssWithOut none).2).outConns = [("a:b", hOutEx)] ∧
    ((stop ssWithOut none).2).disconnects = [] :=
  ⟨rfl, rfl, rfl⟩

/-- Claim C5: in the accept loop model, a loop iteration can begin only
when the flag reads 1 (enterBody is enabled only under flag = 1); while
the flag reads 1 the loop cannot exit; once the flag is not 1 the check
point can only exit; and along every schedule from the listening start
state the Listening to Stopped transition fires at most once. -/
theorem accept_loop_flag_governs (evs : List LoopEv) (s2 t : LoopState)
    (hrun : loopRun lInit evs = some s2) :
    s2.transitions ≤ 1 ∧
    ((loopStep t LoopEv.enterBody).isSome = true → t.flag = 1) ∧
    (t.flag = 1 → loopStep t LoopEv.exitLoop = none) ∧
    (t.flag ≠ 1 → t.pc = LoopPc.check →
      loopStep t LoopEv.exitLoop = some { t with pc := LoopPc.done }) := by
  refine ⟨?_, ?_, ?_, ?_⟩
  · have hinv := loopRun_preserves_inv evs lInit s2 (Or.inl ⟨rfl, rfl⟩) hrun
    rcases hinv with ⟨h1, h2⟩ | ⟨h1, h2⟩
    · omega
    · exact h2
  · intro hs
    by_cases hc : t.pc = LoopPc.check ∧ t.flag = 1
    · exact hc.2
    · simp [loopStep, if_neg hc] at hs
  · intro hf
    simp [loopStep, hf]
  · intro hf hpc
    simp [loopStep, hf, hpc]

theorem accept_loop_flag_governs_witness :
    (⟨LoopPc.done, 0, 1, 1⟩ : LoopState).transitions ≤ 1 ∧
    ((loopStep ⟨LoopPc.check, 0, 1, 0⟩ LoopEv.enterBody).isSome = true →
      (⟨LoopPc.check, 0, 1, 0⟩ : LoopState).flag = 1) ∧
    ((⟨LoopPc.check, 0, 1, 0⟩ : LoopState).flag = 1 →
      loopStep ⟨LoopPc.check, 0, 1, 0⟩ LoopEv.exitLoop = none) ∧
    ((⟨LoopPc.check, 0, 1, 0⟩ : LoopState).flag ≠ 1 →
      (⟨LoopPc.check, 0, 1, 0⟩ : LoopState).pc = LoopPc.check →
      loopStep ⟨LoopPc.check, 0, 1, 0⟩ LoopEv.exitLoop =
        some { (⟨LoopPc.check, 0, 1, 0⟩ : LoopState) with pc := LoopPc.done }) :=
  accept_loop_flag_governs
    [LoopEv.enterBody, LoopEv.acceptOk, LoopEv.stopCall, LoopEv.exitLoop]
    ⟨LoopPc.done, 0, 1, 1⟩ ⟨LoopPc.check, 0, 1, 0⟩ rfl

/-- Claim C7, evaluated at the failing input: the accept loop does not
classify accept errors: the closed-listener error and a transient error
step identically in every state, and while the flag is 1 a persistent
transient error drives the loop back to the very same state each cycle —
no log, no backoff, no exit: an unthrottled busy spin — against the claim
that the loop distinguishes closed-by-stop (clean exit) from transient
errors (log and continue with bounded backoff). -/
theorem accept_error_unclassified_spin :
    loopRun lInit
      [LoopEv.enterBody, LoopEv.acceptErrTransient,
       LoopEv.enterBody, LoopEv.acceptErrTransient] = some lInit ∧
    ∀ t : LoopState,
      loopStep t LoopEv.acceptErrClosed = loopStep t LoopEv.acceptErrTransient :=
  ⟨rfl, fun _ => rfl⟩

/-- Claim C8: registerInStream stores the handle in the inbound registry
under its ID, unregisterInStream removes the entry for that ID, and
removing an ID that is not present leaves the inbound registry (indeed
the whole state) unchanged without failing. -/
theorem registerIn_unregisterIn_props (s : ServerState) (h g : Handle)
    (hmiss : mapLoad s.inConns g.hid = none) :
    mapLoad ((registerInStream s h).inConns) h.hid = some h ∧
    mapLoad ((unregisterInStream s h).inConns) h.hid = none ∧
    unregisterInStream s g = s := by
  refine ⟨?_, ?_, ?_⟩
  · exact mapLoad_mapStore_self s.inConns h.hid h
  · exact mapLoad_mapDelete_self s.inConns h.hid
  · show ({ s with inConns := mapDelete s.inConns g.hid } : ServerState) = s
    rw [mapDelete_absent s.inConns g.hid hmiss]

theorem registerIn_unregisterIn_props_witness :
    mapLoad ((registerInStream ssListening hInEx).inConns) hInEx.hid = some hInEx ∧
    mapLoad ((unregisterInStream ssListening hInEx).inConns) hInEx.hid = none ∧
    unregisterInStream ssListening hInEx2 = ssListening :=
  registerIn_unregisterIn_props ssListening hInEx hInEx2 rfl
